
import Mathlib

/-!
Verification development for the Bambu P2S printer simulator
(`simulator/bambu_p2s_sim.py`).

The Python source is shallowly embedded below:
* byte streams are `List Nat` (each element one octet);
* Python `int` is `Int` (or `Nat` where the source value is a length/count);
* Python `float` is `ℚ` (exact rational arithmetic standing in for IEEE
  doubles; no claim below depends on float rounding);
* Python dict-backed state objects become structures; the optional presence
  of a dict key becomes an `Option` field;
* exceptions become `Option`/explicit abort flags, mirroring exactly which
  `try`/`except` block catches them in the source.
-/

namespace BambuSim

/-- Python list indexing `l[i]`: non-negative indices from the front,
negative indices from the back, `none` models an `IndexError`. -/
def pyGet {α : Type} (l : List α) (i : Int) : Option α :=
  if 0 ≤ i then l.get? i.toNat
  else if 0 ≤ (l.length : Int) + i then l.get? ((l.length : Int) + i).toNat
  else none

/-- Python list item assignment `l[i] = a` (only called after a successful
`pyGet`, so out-of-range indices just return the list unchanged). -/
def pySet {α : Type} (l : List α) (i : Int) (a : α) : List α :=
  if 0 ≤ i then l.set i.toNat a
  else if 0 ≤ (l.length : Int) + i then l.set ((l.length : Int) + i).toNat a
  else l

/-- Python `struct.unpack(">H", b[o:o+2])`: reads a 16-bit big-endian value;
`none` models the `struct.error` raised when fewer than two bytes remain. -/
def unpackH (l : List Nat) : Option Nat :=
  match l with
  | a :: b :: _ => some (a * 256 + b)
  | _ => none

/-- Python `struct.pack(">H", n)`: two big-endian bytes; `none` models the
`struct.error` raised when the value does not fit in 16 bits. -/
def packH (n : Nat) : Option (List Nat) :=
  if n < 65536 then some [n / 256, n % 256] else none

/-- Round half to even (the tie-breaking rule of Python's `round`). -/
def roundHalfEven (x : ℚ) : Int :=
  let f : Int := ⌊x⌋
  let r : ℚ := x - f
  if r < 1/2 then f
  else if 1/2 < r then f + 1
  else if f % 2 = 0 then f else f + 1

/-- Python `round(x, 1)` modelled on exact rationals. -/
def pyRound1 (x : ℚ) : ℚ := (roundHalfEven (x * 10) : ℚ) / 10

/-- Value of a digit string, `none` if any character is not a digit. -/
def digitsVal (cs : List Char) : Option Nat :=
  cs.foldl (fun acc c =>
    acc.bind (fun a => if c.isDigit then some (a * 10 + (c.toNat - 48)) else none))
    (some 0)

/-- Python `float(s)` on plain decimal literals (optional sign, digits,
optional fractional part); `none` models the `ValueError` on anything else.
The handlers below only ever feed it slices of G-code lines. -/
def pyFloat (s : String) : Option ℚ :=
  let t := s.trim
  let (sgn, u) : ℚ × String :=
    if t.startsWith "-" then (-1, t.drop 1)
    else if t.startsWith "+" then (1, t.drop 1) else (1, t)
  match u.splitOn "." with
  | [a] =>
      if a.isEmpty then none
      else (digitsVal a.toList).map (fun v => sgn * v)
  | [a, b] =>
      if a.isEmpty && b.isEmpty then none
      else
        match digitsVal a.toList, digitsVal b.toList with
        | some va, some vb =>
            some (sgn * ((va : ℚ) + (vb : ℚ) / ((10 : ℚ) ^ b.length)))
        | _, _ => none
  | _ => none

/-- Python `int(s)` on plain decimal integer literals. -/
def pyInt (s : String) : Option Int :=
  let t := s.trim
  let (sgn, u) : Int × String :=
    if t.startsWith "-" then (-1, t.drop 1)
    else if t.startsWith "+" then (1, t.drop 1) else (1, t)
  if u.isEmpty then none
  else (digitsVal u.toList).map (fun v => sgn * (v : Int))

/-- Python `int(x)` on a rational: truncation toward zero. -/
def pyTrunc (q : ℚ) : Int := if 0 ≤ q then ⌊q⌋ else ⌈q⌉

/-- One AMS tray, mirroring the tray dicts built in `__init__`
(`bambu_p2s_sim.py` lines 126-235). -/
structure Tray where
  bed_temp : Int
  bed_temp_type : String
  cols : List String
  drying_temp : Int
  drying_time : Int
  id : String
  nozzle_temp_max : Int
  nozzle_temp_min : Int
  remain : ℚ
  tag_uid : String
  tray_color : String
  tray_diameter : ℚ
  tray_id_name : String
  tray_info_idx : String
  tray_sub_brands : String
  tray_type : String
  tray_uuid : String
  tray_weight : Int
  xcam_info : String
  k : ℚ
  n : ℚ
  tray_temp : Int
  tray_time : Int
deriving DecidableEq

/-- The printer state dict `self.state` (lines 99-116).  `printStartTime`
models the presence of a `'print_start_time'` key in the dict: the guard in
`_record_print_completion` tests `'print_start_time' not in self.state`.
No statement in the source ever stores that key. -/
structure PrinterState where
  print_status : String
  progress : Int
  remaining_time : Int
  bed_temp : ℚ
  bed_target_temp : ℚ
  nozzle_temp : ℚ
  nozzle_target_temp : ℚ
  chamber_temp : ℚ
  speed_level : Int
  fan_speed : Int
  layer_num : Int
  total_layers : Int
  print_error : Int
  wifi_signal : Int
  led_mode : String
  online : Bool
  printStartTime : Option Int
deriving DecidableEq

/-- The AMS dict `self.ams['ams']` (lines 119-250); `trays` is
`self.ams['ams']['ams'][0]['tray']` and `unit0_humidity`/`unit0_temp` are
the unit-0 header fields. -/
structure AmsState where
  unit0_id : String
  unit0_humidity : Int
  unit0_temp : ℚ
  trays : List Tray
  ams_exist_bits : String
  insert_flag : Bool
  power_on_flag : Bool
  tray_exist_bits : String
  tray_is_bbl_bits : String
  tray_now : Int
  tray_pre : Int
  tray_read_done_bits : String
  tray_reading_bits : String
  tray_tar : Int
  version : Int
deriving DecidableEq

/-- One entry of `self.print_history` (the dict shape of lines 33-52 and of
`_record_print_completion`). -/
structure HistoryRecord where
  id : String
  gcode_file : String
  subtask_name : String
  profile_id : String
  task_id : String
  weight : ℚ
  length : Int
  start_time : Int
  end_time : Int
  cost_time : Int
  result : String
  reason : Int
  bed_type : String
  nozzle_diameter : ℚ
  filament_used_g : ℚ
  filament_used_mm : Int
  layers : Int
  thumbnail : String
deriving DecidableEq

/-- The mutable simulator state shared by all handlers: printer state,
AMS state, the history ledger and the current-file fields. -/
structure SimState where
  state : PrinterState
  ams : AmsState
  print_history : List HistoryRecord
  current_file : String
  gcode_file_path : String
deriving DecidableEq

/-- A tray of the initial AMS configuration; the four seeded trays differ
only in `id`, colour and `tray_info_idx`. -/
def mkInitTray (id0 color idx : String) : Tray :=
  { bed_temp := 0, bed_temp_type := "0", cols := [color],
    drying_temp := 0, drying_time := 0, id := id0,
    nozzle_temp_max := 240, nozzle_temp_min := 190, remain := 0,
    tag_uid := "0000000000000000", tray_color := color, tray_diameter := 0,
    tray_id_name := "", tray_info_idx := idx, tray_sub_brands := "",
    tray_type := "PLA", tray_uuid := "00000000000000000000000000000000",
    tray_weight := 0, xcam_info := "000000000000000000000000",
    k := 24/1000, n := 1/10, tray_temp := 240, tray_time := 0 }

/-- The three seeded history records (lines 32-93); `now0` is the value of
`int(time.time())` when the simulator object is constructed. -/
def seededHistory (now0 : Int) : List HistoryRecord :=
  [ { id := "1", gcode_file := "test_print_1.gcode",
      subtask_name := "Test Print 1", profile_id := "0", task_id := "1",
      weight := 31/2, length := 3500, start_time := now0 - 7200,
      end_time := now0 - 3600, cost_time := 3600, result := "success",
      reason := 0, bed_type := "auto", nozzle_diameter := 2/5,
      filament_used_g := 31/2, filament_used_mm := 3500, layers := 100,
      thumbnail := "" },
    { id := "2", gcode_file := "test_print_2.gcode",
      subtask_name := "Test Print 2", profile_id := "0", task_id := "2",
      weight := 253/10, length := 5700, start_time := now0 - 14400,
      end_time := now0 - 10800, cost_time := 3600, result := "success",
      reason := 0, bed_type := "auto", nozzle_diameter := 2/5,
      filament_used_g := 253/10, filament_used_mm := 5700, layers := 150,
      thumbnail := "" },
    { id := "3", gcode_file := "failed_print.gcode",
      subtask_name := "Failed Print", profile_id := "0", task_id := "3",
      weight := 10, length := 2000, start_time := now0 - 21600,
      end_time := now0 - 20400, cost_time := 1200, result := "failed",
      reason := 16777216, bed_type := "auto", nozzle_diameter := 2/5,
      filament_used_g := 26/5, filament_used_mm := 1100, layers := 35,
      thumbnail := "" } ]

/-- The full initial simulator state built by `__init__`. -/
def initialState (now0 : Int) : SimState :=
  { state :=
      { print_status := "IDLE", progress := 0, remaining_time := 0,
        bed_temp := 25, bed_target_temp := 0, nozzle_temp := 25,
        nozzle_target_temp := 0, chamber_temp := 25, speed_level := 2,
        fan_speed := 0, layer_num := 0, total_layers := 0, print_error := 0,
        wifi_signal := -45, led_mode := "on", online := true,
        printStartTime := none },
    ams :=
      { unit0_id := "0", unit0_humidity := 3, unit0_temp := 25,
        trays :=
          [ mkInitTray "0" "FF0000FF" "GFA00",
            mkInitTray "1" "000000FF" "GFA00",
            mkInitTray "2" "DFE2E3FF" "GFA05",
            mkInitTray "3" "F95959FF" "GFL00" ],
        ams_exist_bits := "1", insert_flag := true, power_on_flag := false,
        tray_exist_bits := "e", tray_is_bbl_bits := "e", tray_now := 255,
        tray_pre := 255, tray_read_done_bits := "e",
        tray_reading_bits := "0", tray_tar := 255, version := 4 },
    print_history := seededHistory now0,
    current_file := "", gcode_file_path := "" }

/-! ## Packet codec -/

/-- The outbound remaining-length field (`_send_mqtt_publish`, lines
840-849): base-128 with the high bit as continuation flag, low byte first. -/
def encodeRemainingLength (m : Nat) : List Nat :=
  if m / 128 = 0 then [m % 128]
  else (m % 128 + 128) :: encodeRemainingLength (m / 128)
termination_by m
decreasing_by
  have h128 : 128 ≤ m := by
    by_contra hlt
    exact (by assumption : ¬ m / 128 = 0) (Nat.div_eq_of_lt (by omega))
  exact Nat.div_lt_self (by omega) (by omega)

/-- The inbound remaining-length loop (`_handle_client`, lines 594-604):
accumulates 7 bits per byte until a byte with the high bit clear; returns
the decoded length and the unread rest of the stream, `none` when the
stream ends first. -/
def decodeRemainingLength : List Nat → Nat → Nat → Option (Nat × List Nat)
  | [], _, _ => none
  | b :: rest, mult, acc =>
      let acc' := acc + (b &&& 0x7F) * mult
      if b &&& 0x80 = 0 then some (acc', rest)
      else decodeRemainingLength rest (mult * 128) acc'

/-- The fixed-header read of `_handle_client` (lines 586-613): first byte,
remaining length, then exactly that many payload bytes.  `none` models the
paths that break the read loop (empty read or an incomplete packet). -/
def decodeFrame (stream : List Nat) : Option (Nat × List Nat × List Nat) :=
  match stream with
  | [] => none
  | b0 :: rest0 =>
      match decodeRemainingLength rest0 1 0 with
      | none => none
      | some (remLen, rest) =>
          if remLen ≤ rest.length then
            some (b0, rest.take remLen, rest.drop remLen)
          else none

/-- The PUBLISH body decode of `_handle_mqtt_publish` (lines 730-751):
QoS from the flag bits, length-prefixed topic, a 16-bit packet id when
QoS > 0, then the message payload. -/
def decodePublishPayload (flags : Nat) (payload : List Nat) :
    Option (Nat × List Nat × Option Nat × List Nat) :=
  let qos := (flags >>> 1) &&& 0x03
  match unpackH payload with
  | none => none
  | some topicLen =>
      let topic := (payload.drop 2).take topicLen
      let rest := (payload.drop 2).drop topicLen
      if qos > 0 then
        match unpackH rest with
        | none => none
        | some pid => some (qos, topic, some pid, rest.drop 2)
      else
        some (qos, topic, none, rest)

/-- The PUBLISH encoder `_send_mqtt_publish` (lines 815-856): fixed header
byte `0x30 | qos << 1`, re-derived remaining length, length-prefixed topic,
packet id 1 when QoS > 0, then the JSON payload bytes. -/
def encodePublish (topic body : List Nat) (qos : Nat) : Option (List Nat) :=
  match packH topic.length, (if qos > 0 then packH 1 else some []) with
  | some tl, some pidBytes =>
      let vh := tl ++ topic ++ pidBytes ++ body
      some ((0x30 ||| (qos <<< 1)) :: encodeRemainingLength vh.length ++ vh)
  | _, _ => none

/-- A decoded CONNECT packet. -/
structure ConnectPacket where
  protocol_name : List Nat
  protocol_level : Nat
  connect_flags : Nat
  keep_alive : Nat
  client_id : List Nat
  username : Option (List Nat)
  password : Option (List Nat)
deriving DecidableEq

/-- The CONNECT decode of `_handle_mqtt_connect` (lines 654-704): protocol
name, level, flags (bit 7 username / bit 6 password), keep-alive, client id,
then the optional credentials.  `none` models the exception path (caught at
line 725, so nothing at all is sent back). -/
def decodeConnect (payload : List Nat) : Option ConnectPacket := do
  let pnLen ← unpackH payload
  let r1 := payload.drop 2
  let protoName := r1.take pnLen
  let r2 := r1.drop pnLen
  let level ← r2.head?
  let flags ← (r2.drop 1).head?
  let usernameFlag := (flags >>> 7) &&& 1
  let passwordFlag := (flags >>> 6) &&& 1
  let r3 := r2.drop 2
  let keepAlive ← unpackH r3
  let r4 := r3.drop 2
  let cidLen ← unpackH r4
  let cid := (r4.drop 2).take cidLen
  let r5 := (r4.drop 2).drop cidLen
  if usernameFlag = 1 then
    let uLen ← unpackH r5
    let uname := (r5.drop 2).take uLen
    let r6 := (r5.drop 2).drop uLen
    if passwordFlag = 1 then
      let pLen ← unpackH r6
      let pwd := (r6.drop 2).take pLen
      some ⟨protoName, level, flags, keepAlive, cid, some uname, some pwd⟩
    else
      some ⟨protoName, level, flags, keepAlive, cid, some uname, none⟩
  else
    if passwordFlag = 1 then
      let pLen ← unpackH r5
      let pwd := (r5.drop 2).take pLen
      some ⟨protoName, level, flags, keepAlive, cid, none, some pwd⟩
    else
      some ⟨protoName, level, flags, keepAlive, cid, none, none⟩

/-- The topic loop of `_handle_mqtt_subscribe` (lines 784-798): collects the
requested QoS of each (topic, qos) pair until the payload is exhausted;
`none` models a decode exception (caught at line 806, nothing sent). -/
def subscribeQosList (l : List Nat) : Option (List Nat) :=
  if h : l.isEmpty then some []
  else do
    let tl ← unpackH l
    let rest := (l.drop 2).drop tl
    let q ← rest.head?
    let qs ← subscribeQosList (rest.drop 1)
    some (q :: qs)
termination_by l.length
decreasing_by
  simp only [List.drop_drop, List.length_drop]
  have hpos : 0 < l.length := by
    cases l with
    | nil => simp at h
    | cons a t => simp
  omega

/-- The SUBSCRIBE handler's decode + SUBACK bytes (lines 773-804).  Note the
source writes `1 + len(granted_qos)` as the remaining-length byte. -/
def subackBytes (payload : List Nat) : Option (List Nat) := do
  let pid ← unpackH payload
  let qs ← subscribeQosList (payload.drop 2)
  let pidBytes ← packH pid
  some (0x90 :: (1 + qs.length) :: pidBytes ++ qs)

/-! ## Command layer -/

/-- The fields `_handle_command` and its sub-handlers read from a decoded
JSON command dict via `.get(key, default)`; an absent key is `none` and the
handler applies the source's default. -/
structure Command where
  command : Option String := none
  sequence_id : Option String := none
  gcode_file : Option String := none
  ams_tray : Option Int := none
  gcode : Option String := none
  target_ams : Option Int := none
  start : Option Nat := none
  count : Option Nat := none
  filter : Option String := none
deriving DecidableEq

/-- The status snapshot built by `_send_full_status_mqtt` (lines 863-895);
constant fields of the dict (msg, lights, ipcam, stg, ...) are kept only
where they vary with state. -/
structure StatusSnapshot where
  sequence_id : String
  gcode_state : String
  mc_print_stage : String
  mc_percent : Int
  mc_remaining_time : Int
  bed_temper : ℚ
  bed_target_temper : ℚ
  nozzle_temper : ℚ
  nozzle_target_temper : ℚ
  chamber_temper : ℚ
  speed_level : Int
  fan_gear : Int
  layer_num : Int
  total_layer_num : Int
  print_error : Int
  wifi_signal : Int
  led_mode : String
  gcode_file : String
  subtask_name : String
  tray_now : Int
  trays : List Tray
deriving DecidableEq

/-- A JSON message sent back to a client. -/
inductive OutMsg where
  | cmdReply (command result sequence_id : String) (reason : Option String)
  | historyReply (sequence_id : String) (total start count : Nat)
      (records : List HistoryRecord)
  | versionReply (sequence_id : String)
  | pushStatus (snap : StatusSnapshot)
deriving DecidableEq

/-- The snapshot `_send_full_status_mqtt` assembles from the live state. -/
def statusSnapshot (s : SimState) (seq : String) : StatusSnapshot :=
  { sequence_id := seq, gcode_state := s.state.print_status,
    mc_print_stage := s.state.print_status, mc_percent := s.state.progress,
    mc_remaining_time := s.state.remaining_time,
    bed_temper := s.state.bed_temp,
    bed_target_temper := s.state.bed_target_temp,
    nozzle_temper := s.state.nozzle_temp,
    nozzle_target_temper := s.state.nozzle_target_temp,
    chamber_temper := s.state.chamber_temp,
    speed_level := s.state.speed_level, fan_gear := s.state.fan_speed,
    layer_num := s.state.layer_num, total_layer_num := s.state.total_layers,
    print_error := s.state.print_error, wifi_signal := s.state.wifi_signal,
    led_mode := s.state.led_mode, gcode_file := s.current_file,
    subtask_name := s.current_file, tray_now := s.ams.tray_now,
    trays := s.ams.trays }

/-- `_execute_gcode` (lines 1028-1054): M104/M140 set target temperatures,
M106 rescales a 0-255 fan value to percent, M107 switches the fan off; every
parse failure is swallowed by the inner `try`. -/
def executeGcode (s : SimState) (g : String) : SimState :=
  let gc := g.trim.toUpper
  if gc.startsWith "M104" then
    match ((gc.splitOn "S").get? 1).bind pyFloat with
    | some t => { s with state := { s.state with nozzle_target_temp := t } }
    | none => s
  else if gc.startsWith "M140" then
    match ((gc.splitOn "S").get? 1).bind pyFloat with
    | some t => { s with state := { s.state with bed_target_temp := t } }
    | none => s
  else if gc.startsWith "M106" then
    match ((gc.splitOn "S").get? 1).bind pyInt with
    | some sp =>
        { s with state :=
            { s.state with fan_speed := pyTrunc ((sp : ℚ) / 255 * 100) } }
    | none => s
  else if gc.startsWith "M107" then
    { s with state := { s.state with fan_speed := 0 } }
  else s

/-- The ledger insertion of `_record_print_completion` (lines 1092-1095):
insert at index 0, then truncate to the first 50 entries if the list grew
beyond 50. -/
def historyInsert (h : List HistoryRecord) (e : HistoryRecord) :
    List HistoryRecord :=
  let h2 := e :: h
  if h2.length > 50 then h2.take 50 else h2

/-- `_record_print_completion` (lines 1056-1097).  The guard returns
unchanged state unless the `'print_start_time'` key is present in the state
dict — which no code path ever stores, see `PrinterState.printStartTime`.
`now` is `int(time.time())` at the call. -/
def recordPrintCompletion (now : Int) (s : SimState) (success : Bool)
    (reason : Int) : SimState :=
  match s.state.printStartTime with
  | none => s
  | some startTime =>
      let endTime := now
      let costTime := endTime - startTime
      let filamentMm := s.state.progress * 50
      let filamentG : ℚ := (filamentMm : ℚ) * (75/10000)
      let entry : HistoryRecord :=
        { id := toString (s.print_history.length + 1),
          gcode_file := s.current_file, subtask_name := s.current_file,
          profile_id := "0",
          task_id := toString (s.print_history.length + 1),
          weight := pyRound1 filamentG, length := filamentMm,
          start_time := startTime, end_time := endTime,
          cost_time := costTime,
          result := if success then "success" else "failed",
          reason := reason, bed_type := "auto", nozzle_diameter := 2/5,
          filament_used_g := pyRound1 filamentG,
          filament_used_mm := filamentMm, layers := s.state.layer_num,
          thumbnail := "" }
      { s with print_history := historyInsert s.print_history entry }

/-- `_send_history` (lines 1099-1131): filter, stable sort by start time
descending, then the slice `[start : min (start+count) total]`, reported
with the post-filter total. -/
def filterHistory (filt : String) (h : List HistoryRecord) :
    List HistoryRecord :=
  if filt = "success" then h.filter (fun r => r.result == "success")
  else if filt = "failed" then h.filter (fun r => r.result == "failed")
  else h

/-- Stable insertion keeping existing entries with an equal-or-larger start
time in front — one step of the stable descending sort. -/
def insertDesc (e : HistoryRecord) : List HistoryRecord → List HistoryRecord
  | [] => [e]
  | a :: rest =>
      if e.start_time ≤ a.start_time then a :: insertDesc e rest
      else e :: a :: rest

/-- Stable sort by `start_time` descending, modelling Python's stable
`list.sort(key=..., reverse=True)`. -/
def sortStartDesc (l : List HistoryRecord) : List HistoryRecord :=
  l.foldl (fun acc x => insertDesc x acc) []

/-- The reply of `_send_history`.  The `start`/`count` parameters are
modelled as naturals, the domain the protocol uses; a negative JSON value
would take Python's negative-slice path, which no claim concerns. -/
def sendHistory (s : SimState) (seq : String) (c : Command) : OutMsg :=
  let start := c.start.getD 0
  let count := c.count.getD 10
  let filt := c.filter.getD "all"
  let sorted := sortStartDesc (filterHistory filt s.print_history)
  let total := sorted.length
  let e := min (start + count) total
  let page := (sorted.take e).drop start
  .historyReply seq total start page.length page

/-- Result of one dispatched command: the new shared state, the messages
sent for this command, and whether an exception escaped the command (in
which case `_handle_command`'s `except` aborts the per-message loop). -/
def handleOneCommand (now : Int) (s : SimState) (c : Command) :
    SimState × List OutMsg × Bool :=
  let cmd := c.command.getD ""
  let seq := c.sequence_id.getD "0"
  if cmd = "push_all" then
    -- `self._send_full_status` does not exist (the class only defines
    -- `_send_full_status_mqtt`), so this branch raises AttributeError,
    -- caught by the handler's `except`: nothing is sent.
    (s, [], true)
  else if cmd = "get_history" then
    (s, [sendHistory s seq c], false)
  else if cmd = "get_version" then
    (s, [.versionReply seq], false)
  else if cmd = "start_print" ∨ cmd = "project_file" then
    let s1 := { s with current_file := c.gcode_file.getD "test.gcode" }
    let st2 := { s1.state with
      print_status := "RUNNING"
      progress := 0
      layer_num := 0
      total_layers := 100
      remaining_time := 3600 }
    let s2 := { s1 with state := st2 }
    let trayId := c.ams_tray.getD 0
    if trayId < (s2.ams.trays.length : Int) then
      match pyGet s2.ams.trays trayId with
      | some tray =>
          let st3 := { s2.state with
            bed_target_temp := (tray.bed_temp : ℚ)
            nozzle_target_temp := ((tray.nozzle_temp_min + 10 : Int) : ℚ) }
          let s3 := { s2 with
            state := st3
            ams := { s2.ams with tray_now := trayId } }
          (s3, [.cmdReply "start_print" "success" seq none], false)
      | none =>
          -- IndexError on `tray[tray_id]`: the state writes above already
          -- happened; the exception aborts the loop with nothing sent.
          (s2, [], true)
    else
      (s2, [.cmdReply "start_print" "success" seq none], false)
  else if cmd = "pause" then
    ({ s with state := { s.state with print_status := "PAUSED" } },
     [.cmdReply "pause" "success" seq none], false)
  else if cmd = "resume" then
    ({ s with state := { s.state with print_status := "RUNNING" } },
     [.cmdReply "resume" "success" seq none], false)
  else if cmd = "stop" then
    let s1 := recordPrintCompletion now s false 50331648
    let st2 := { s1.state with
      print_status := "IDLE"
      progress := 0
      bed_target_temp := 0
      nozzle_target_temp := 0 }
    let s2 := { s1 with
      state := st2
      ams := { s1.ams with tray_now := 255 } }
    (s2, [.cmdReply "stop" "success" seq none], false)
  else if cmd = "gcode_line" then
    (executeGcode s (c.gcode.getD ""),
     [.cmdReply "gcode_line" "success" seq none], false)
  else if cmd = "change_filament" then
    let trayId := c.target_ams.getD 0
    if trayId < (s.ams.trays.length : Int) then
      ({ s with ams := { s.ams with tray_now := trayId } },
       [.cmdReply "change_filament" "success" seq none], false)
    else
      (s, [.cmdReply "change_filament" "failed" seq (some "Invalid tray")],
       false)
  else
    (s, [.cmdReply cmd "unknown_command" seq none], false)

/-- The `for key, command in message.items()` loop of `_handle_command`:
items are dispatched in order until one raises (the surrounding `try`
catches the exception and ends the loop). -/
def handleCommandMsg (now : Int) (s : SimState) :
    List Command → SimState × List OutMsg
  | [] => (s, [])
  | c :: rest =>
      let r := handleOneCommand now s c
      if r.2.2 then (r.1, r.2.1)
      else
        let r' := handleCommandMsg now r.1 rest
        (r'.1, r.2.1 ++ r'.2)

/-! ## Simulation tick -/

/-- One iteration of the `_simulate_printer` loop body (lines 1166-1204),
excluding the independently-timed 2-second broadcast: temperature update,
then progress/completion handling.  `none` models the uncaught `IndexError`
on `tray[tray_now]` (which would kill the simulation thread).  `now` is
`int(time.time())` for the (dead) completion-record path. -/
def simulateTick (now : Int) (s : SimState) : Option SimState :=
  let st0 := s.state
  let nozzle1 :=
    if st0.nozzle_target_temp > 0 then
      st0.nozzle_temp + (st0.nozzle_target_temp - st0.nozzle_temp) * (5/100)
    else st0.nozzle_temp
  let bed1 :=
    if st0.bed_target_temp > 0 then
      st0.bed_temp + (st0.bed_target_temp - st0.bed_temp) * (3/100)
    else st0.bed_temp
  let nozzle2 :=
    if st0.nozzle_target_temp = 0 then max 25 (nozzle1 - 1/2) else nozzle1
  let bed2 :=
    if st0.bed_target_temp = 0 then max 25 (bed1 - 3/10) else bed1
  let st1 := { st0 with nozzle_temp := nozzle2, bed_temp := bed2 }
  let s1 := { s with state := st1 }
  if st1.print_status = "RUNNING" then
    if st1.progress < 100 then
      let p := st1.progress + 10
      let st2 := { st1 with
        progress := p
        remaining_time := (100 - p) * 36
        layer_num := p }
      let s2 := { s1 with state := st2 }
      if s2.ams.tray_now ≠ 255 then
        match pyGet s2.ams.trays s2.ams.tray_now with
        | some tray =>
            let tray' :=
              if tray.remain > 0 then
                { tray with remain := max 0 (tray.remain - 1/100) }
              else tray
            some { s2 with ams := { s2.ams with
              trays := pySet s2.ams.trays s2.ams.tray_now tray' } }
        | none => none
      else some s2
    else
      let s2 := recordPrintCompletion now s1 true 0
      let st2 := { s2.state with
        print_status := "IDLE"
        progress := 100
        remaining_time := 0 }
      some { s2 with state := st2 }
  else some s1

/-! ## Session layer -/

/-- Bytes of the fixed expected username `'bblp'`. -/
def bblpBytes : List Nat := [0x62, 0x62, 0x6c, 0x70]

/-- Everything a worker sends down one socket: raw control bytes (CONNACK,
PUBACK, SUBACK, PINGRESP) or an encoded JSON publish. -/
inductive Sent where
  | raw (bytes : List Nat)
  | msg (m : OutMsg)
deriving DecidableEq

/-- `_handle_mqtt_connect` (lines 654-728): decode, compare against the
fixed username and the configured access code, answer with CONNACK `0x00`
(and an immediate full-status push, sequence id `'0'`) on success or
CONNACK `0x05` on failure.  The returned `Bool` is whether the socket was
added to `self.authenticated_clients`.  `none` models the decode exception
(caught inside the handler: nothing sent, set untouched). -/
def handleMqttConnect (accessCode : List Nat) (s : SimState)
    (payload : List Nat) : Option (List Nat × Bool × List OutMsg) :=
  match decodeConnect payload with
  | none => none
  | some c =>
      if c.username = some bblpBytes ∧ c.password = some accessCode then
        some ([0x20, 0x02, 0x00, 0x00], true,
              [.pushStatus (statusSnapshot s "0")])
      else
        some ([0x20, 0x02, 0x00, 0x05], false, [])

/-- `_handle_mqtt_publish` (lines 730-771) for an authenticated worker:
decode the topic/packet id, send a PUBACK when QoS is 1, then parse the
JSON body and run `_handle_command`.  `jsonParse` stands for
`json.loads` composed with UTF-8 decoding of the body bytes: JSON parsing
itself is external library behaviour and is not re-implemented here
(`none` = `JSONDecodeError`, swallowed with no reply). -/
def handleMqttPublish (jsonParse : List Nat → Option (List Command))
    (now : Int) (s : SimState) (firstByte : Nat) (payload : List Nat) :
    SimState × List Sent :=
  match decodePublishPayload firstByte payload with
  | none => (s, [])
  | some (qos, _topic, pid, body) =>
      let acks : Option (List Sent) :=
        match pid with
        | some p =>
            if qos = 1 then
              (packH p).map (fun pb => [.raw ([0x40, 0x02] ++ pb)])
            else some []
        | none => some []
      match acks with
      | none => (s, [])
      | some acks =>
          match jsonParse body with
          | none => (s, acks)
          | some items =>
              let r := handleCommandMsg now s items
              (r.1, acks ++ r.2.map .msg)

/-- Per-connection worker state: the worker-local `authenticated` variable
of `_handle_client` and membership in `self.authenticated_clients`. -/
structure SessionState where
  auth : Bool
  inAuthSet : Bool
  sim : SimState
deriving DecidableEq

/-- One iteration of the `_handle_client` packet loop (lines 615-637) on an
already-framed packet: dispatch on the packet type.  The source sets
`authenticated = True` after `_handle_mqtt_connect` returns, regardless of
whether the credentials were accepted.  Returns the new session state, the
messages sent, and whether the loop terminates (DISCONNECT). -/
def sessionStep (accessCode : List Nat)
    (jsonParse : List Nat → Option (List Command)) (now : Int)
    (ss : SessionState) (firstByte : Nat) (payload : List Nat) :
    SessionState × List Sent × Bool :=
  let ptype := (firstByte >>> 4) &&& 0x0F
  if ptype = 1 then
    match handleMqttConnect accessCode ss.sim payload with
    | none => ({ ss with auth := true }, [], false)
    | some (connack, ok, pushes) =>
        ({ ss with auth := true, inAuthSet := ss.inAuthSet || ok },
         .raw connack :: pushes.map .msg, false)
  else if ptype = 3 then
    if ss.auth then
      let r := handleMqttPublish jsonParse now ss.sim firstByte payload
      ({ ss with sim := r.1 }, r.2, false)
    else (ss, [], false)
  else if ptype = 8 then
    if ss.auth then
      match subackBytes payload with
      | some sb => (ss, [.raw sb], false)
      | none => (ss, [], false)
    else (ss, [], false)
  else if ptype = 12 then
    (ss, [.raw [0xD0, 0x00]], false)
  else if ptype = 14 then
    (ss, [], true)
  else
    (ss, [], false)

/-! ## Reachability -/

/-- Shorthand for the state reached by one dispatched command. -/
def applyCmd (now : Int) (s : SimState) (c : Command) : SimState :=
  (handleOneCommand now s c).1

/-- States of the shared simulator object reachable from start-up through
dispatched commands and simulation ticks. -/
inductive Reachable : SimState → Prop where
  | init (now0 : Int) : Reachable (initialState now0)
  | tick {s s' : SimState} (now : Int) :
      Reachable s → simulateTick now s = some s' → Reachable s'
  | cmd {s : SimState} (now : Int) (c : Command) :
      Reachable s → Reachable (applyCmd now s c)

/-- Packet-level publish decode: framing, packet-type check, then the
publish body; requires the whole input to be consumed. -/
def decodePublishPacket (pkt : List Nat) :
    Option (Nat × List Nat × Option Nat × List Nat) :=
  match decodeFrame pkt with
  | none => none
  | some (b0, payload, rest) =>
      if (b0 >>> 4) &&& 0x0F = 3 ∧ rest = [] then
        decodePublishPayload b0 payload
      else none

/-! ## Concrete fixtures used by witnesses and counterexamples -/

/-- The change-filament command as decoded from JSON. -/
def chCmd (seq : String) (t : Int) : Command :=
  { command := some "change_filament", sequence_id := some seq,
    target_ams := some t }

/-- A bare query command (name and sequence id only), as decoded from
JSON. -/
def queryCmd (name seq : String) : Command :=
  { command := some name, sequence_id := some seq }

/-- An access code used for concrete runs ('test'). -/
def waccessCode : List Nat := [0x74, 0x65, 0x73, 0x74]

/-- A concrete well-formed CONNECT payload: protocol name 'MQTT', level 4,
flags 0xC0, keep-alive 60, client id 'a', username 'bblp', password
'test'. -/
def wconnectPayload : List Nat :=
  [0, 4, 0x4d, 0x51, 0x54, 0x54, 4, 0xc0, 0, 60, 0, 1, 0x61,
   0, 4, 0x62, 0x62, 0x6c, 0x70, 0, 4, 0x74, 0x65, 0x73, 0x74]

/-- The decoded form of `wconnectPayload`. -/
def wconnectPacket : ConnectPacket :=
  { protocol_name := [0x4d, 0x51, 0x54, 0x54], protocol_level := 4,
    connect_flags := 0xc0, keep_alive := 60, client_id := [0x61],
    username := some [0x62, 0x62, 0x6c, 0x70],
    password := some [0x74, 0x65, 0x73, 0x74] }

/-- Spec-side description of the get-history query, written from the spec
text (§4.5): keep only the records matching the filter, sort by start time
descending, slice `[offset, offset+count)`, and report the total
post-filter count alongside the slice. -/
def historyQuerySpec (ledger : List HistoryRecord) (offset count : Nat)
    (filt : String) : Nat × List HistoryRecord :=
  let kept := ledger.filter (fun r =>
    if filt = "success" then r.result == "success"
    else if filt = "failed" then r.result == "failed"
    else true)
  (kept.length, ((sortStartDesc kept).drop offset).take count)

/-- A failed-filter history query used by the witness. -/
def histFailedCmd : Command :=
  { command := some "get_history", sequence_id := some "9",
    filter := some "failed" }

/-- The progress invariant maintained by every operation: progress is a
multiple of 10 between 0 and 100. -/
def progressInv (s : SimState) : Prop :=
  0 ≤ s.state.progress ∧ s.state.progress ≤ 100 ∧ s.state.progress % 10 = 0

/-- The state reached from start-up by a start-print command. -/
def sRun : SimState := applyCmd 0 (initialState 0) (queryCmd "start_print" "1")

/-- `sRun` after one simulation tick (progress 10). -/
def sRun10 : SimState := (simulateTick 0 sRun).getD sRun

/-- A running state at progress 90 with no tray selected. -/
def w90 : SimState :=
  { initialState 0 with
    state := { (initialState 0).state with
      print_status := "RUNNING"
      progress := 90 } }

/-- `sRun10` after one more tick (progress 20). -/
def sRun20 : SimState := (simulateTick 0 sRun10).getD sRun10

/-- Access code for the concrete counterexample session ('test'). -/
def cxAccess : List Nat := [0x74, 0x65, 0x73, 0x74]

/-- A CONNECT payload with username 'bblp' but wrong password 'z'. -/
def cxBadConnect : List Nat :=
  [0, 4, 0x4d, 0x51, 0x54, 0x54, 4, 0xc0, 0, 60, 0, 1, 0x61,
   0, 4, 0x62, 0x62, 0x6c, 0x70, 0, 1, 0x7a]

/-- The JSON layer for the counterexample: every body parses to a pause
command. -/
def cxParse : List Nat → Option (List Command) :=
  fun _ => some [queryCmd "pause" "5"]

/-- A fresh session. -/
def cxSession0 : SessionState :=
  { auth := false, inAuthSet := false, sim := initialState 0 }

/-- The session after its connection-open was refused. -/
def cxSession1 : SessionState :=
  (sessionStep cxAccess cxParse 0 cxSession0 0x10 cxBadConnect).1

/-- A QoS-0 publish packet payload: topic 't', body `0x7b`. -/
def cxPubPayload : List Nat := [0, 1, 0x74, 0x7b]

/-! ## Codec lemmas -/

lemma land128_small : ∀ b < 128, b &&& 128 = 0 := by decide

lemma land128_large : ∀ b < 128, (b + 128) &&& 128 = 128 := by decide

lemma land127_small : ∀ b < 128, b &&& 127 = b := by decide

lemma land127_large : ∀ b < 128, (b + 128) &&& 127 = b := by decide

/-- The inbound base-128 loop inverts the outbound base-128 encoder, for
any accumulator state and any trailing bytes. -/
lemma decode_encode_remLen (m : Nat) : ∀ (mult acc : Nat) (rest : List Nat),
    decodeRemainingLength (encodeRemainingLength m ++ rest) mult acc =
      some (acc + m * mult, rest) := by
  induction m using Nat.strong_induction_on with
  | _ m ih =>
    intro mult acc rest
    rw [encodeRemainingLength]
    by_cases h : m / 128 = 0
    · have hm : m < 128 := by omega
      have hmod : m % 128 = m := Nat.mod_eq_of_lt hm
      simp only [if_pos h, hmod, List.cons_append, List.nil_append,
        decodeRemainingLength, land127_small m hm, land128_small m hm,
        if_true]
    · have hm : 128 ≤ m := by omega
      have hlt : m / 128 < m := Nat.div_lt_self (by omega) (by omega)
      have h127 : m % 128 < 128 := Nat.mod_lt _ (by omega)
      have hne : m % 128 + 128 &&& 128 ≠ 0 := by
        rw [land128_large _ h127]; omega
      simp only [if_neg h, List.cons_append, decodeRemainingLength,
        land127_large _ h127, if_neg hne]
      rw [ih _ hlt]
      have hdm : m % 128 + 128 * (m / 128) = m := Nat.mod_add_div m 128
      congr 2
      calc acc + m % 128 * mult + m / 128 * (mult * 128)
          = acc + (m % 128 + 128 * (m / 128)) * mult := by ring
        _ = acc + m * mult := by rw [hdm]

/-- Decoding the frame of a packet whose remaining-length field was encoded
from the actual variable-header length recovers the variable header. -/
lemma decodeFrame_cons (b0 m : Nat) (vh : List Nat) (hm : m = vh.length) :
    decodeFrame (b0 :: (encodeRemainingLength m ++ vh)) =
      some (b0, vh, []) := by
  subst hm
  simp [decodeFrame, decode_encode_remLen vh.length 1 0 vh]

/-- C5: for every publish packet with a topic of fewer than 2^16 bytes and
QoS 0 or 1, the bytes produced by the publish encoder decode back to the
original packet (with the encoder's constant packet id 1 when QoS > 0), and
the base-128 remaining-length encoding is inverted by the header decode
loop on any input. -/
theorem publish_encode_decode_roundtrip (topic body : List Nat) (qos : Nat)
    (htop : topic.length < 65536) (hq : qos = 0 ∨ qos = 1) :
    (∀ m rest, decodeRemainingLength (encodeRemainingLength m ++ rest) 1 0 =
        some (m, rest)) ∧
    (encodePublish topic body qos).bind decodePublishPacket =
      some (qos, topic, if qos = 0 then none else some 1, body) := by
  constructor
  · intro m rest
    simpa using decode_encode_remLen m 1 0 rest
  · have hpack : packH topic.length =
        some [topic.length / 256, topic.length % 256] := by
      simp [packH, htop]
    have hlen : topic.length / 256 * 256 + topic.length % 256 =
        topic.length := by omega
    rcases hq with hq | hq <;> subst hq
    · -- QoS 0
      simp only [encodePublish, hpack, gt_iff_lt, lt_self_iff_false,
        reduceIte, List.cons_append, List.nil_append, List.append_nil,
        List.append_assoc, Option.some_bind]
      simp only [decodePublishPacket]
      rw [decodeFrame_cons _ _ _
        (by simp only [List.length_cons, List.length_append]; try omega)]
      simp [decodePublishPayload, unpackH, hlen, List.take_left,
        List.drop_left]
      exact ⟨by decide, by simp [show (24 : Nat) &&& 3 = 0 from by decide]⟩
    · -- QoS 1
      have hpid : packH 1 = some [0, 1] := by decide
      simp only [encodePublish, hpack, hpid, gt_iff_lt, Nat.zero_lt_one,
        reduceIte, List.cons_append, List.nil_append, List.append_nil,
        List.append_assoc, Option.some_bind]
      simp only [decodePublishPacket]
      rw [decodeFrame_cons _ _ _
        (by simp only [List.length_cons, List.length_append]; try omega)]
      simp [decodePublishPayload, unpackH, hlen, List.take_left,
        List.drop_left]
      exact ⟨by decide, by simp [show (25 : Nat) &&& 3 = 1 from by decide]⟩

/-- Witness for the round-trip theorem at a concrete packet. -/
theorem publish_encode_decode_roundtrip_witness :
    (decodeRemainingLength (encodeRemainingLength 300 ++ [7]) 1 0 =
        some (300, [7])) ∧
    (encodePublish [100, 101] [123] 1).bind decodePublishPacket =
      some (1, [100, 101], some 1, [123]) :=
  ⟨(publish_encode_decode_roundtrip [100, 101] [123] 1 (by decide)
      (Or.inr rfl)).1 300 [7],
   (publish_encode_decode_roundtrip [100, 101] [123] 1 (by decide)
      (Or.inr rfl)).2⟩

/-! ## History ledger claims -/

/-- C7: every insertion places the new record at the front and truncates to
the 50 most recent entries, so the ledger never exceeds 50 records and the
entries beyond the cap are dropped. -/
theorem history_insert_front_capped (h : List HistoryRecord)
    (e : HistoryRecord) :
    historyInsert h e = (e :: h).take 50 ∧
    (historyInsert h e).head? = some e ∧
    (historyInsert h e).length = min (h.length + 1) 50 ∧
    (historyInsert h e).length ≤ 50 := by
  have heq : historyInsert h e = (e :: h).take 50 := by
    unfold historyInsert
    by_cases hl : (e :: h).length > 50
    · simp [hl]
    · simp only [if_neg hl]
      exact (List.take_of_length_le (by simp at hl ⊢; omega)).symm
  have htake : (e :: h).take 50 = e :: h.take 49 := rfl
  refine ⟨heq, ?_, ?_, ?_⟩
  · rw [heq, htake]; rfl
  · rw [heq, List.length_take, List.length_cons]; omega
  · rw [heq, List.length_take, List.length_cons]; omega

/-! ## Command dispatcher claims -/

/-- C10: the change-filament failure reply is produced exactly when the
target index is at least the tray count; any negative index passes the
check, is answered with success, and is stored as the selected tray even
though it is neither the sentinel 255 nor a valid index. -/
theorem change_filament_range (now : Int) (s : SimState) (seq : String)
    (t : Int) :
    ((handleOneCommand now s (chCmd seq t)).2.1 =
        [.cmdReply "change_filament" "failed" seq (some "Invalid tray")] ↔
      (s.ams.trays.length : Int) ≤ t) ∧
    (t < (s.ams.trays.length : Int) →
      (handleOneCommand now s (chCmd seq t)).1 =
        { s with ams := { s.ams with tray_now := t } } ∧
      (handleOneCommand now s (chCmd seq t)).2.1 =
        [.cmdReply "change_filament" "success" seq none]) ∧
    (t < 0 →
      (handleOneCommand now s (chCmd seq t)).1.ams.tray_now = t ∧
      (handleOneCommand now s (chCmd seq t)).2.1 =
        [.cmdReply "change_filament" "success" seq none] ∧
      t ≠ 255 ∧ t < 0) ∧
    (handleOneCommand now s (chCmd seq t)).2.2 = false := by
  by_cases ht : t < (s.ams.trays.length : Int)
  · simp [handleOneCommand, chCmd, ht]
    omega
  · simp [handleOneCommand, chCmd, ht]
    omega

/-- Witness: change-filament to tray −1 on the seeded state succeeds and
stores −1 as the selected tray. -/
theorem change_filament_range_witness :
    (handleOneCommand 0 (initialState 0) (chCmd "7" (-1))).1.ams.tray_now =
        -1 ∧
    (handleOneCommand 0 (initialState 0) (chCmd "7" (-1))).2.1 =
      [.cmdReply "change_filament" "success" "7" none] ∧
    (-1 : Int) ≠ 255 ∧ (-1 : Int) < 0 :=
  (change_filament_range 0 (initialState 0) "7" (-1)).2.2.1 (by decide)

/-- C9: dispatching push-all leaves all state unchanged but — because the
handler calls the non-existent method `_send_full_status` — sends no reply
at all (the AttributeError is swallowed); get-history and get-version leave
all state unchanged and send exactly one reply. -/
theorem query_commands_frame (now : Int) (s : SimState) (seq : String) :
    handleOneCommand now s (queryCmd "push_all" seq) = (s, [], true) ∧
    (handleOneCommand now s (queryCmd "get_history" seq)).1 = s ∧
    (handleOneCommand now s (queryCmd "get_history" seq)).2 =
      ([sendHistory s seq (queryCmd "get_history" seq)], false) ∧
    (handleOneCommand now s (queryCmd "get_version" seq)).1 = s ∧
    (handleOneCommand now s (queryCmd "get_version" seq)).2 =
      ([.versionReply seq], false) := by
  refine ⟨?_, ?_, ?_, ?_, ?_⟩ <;> simp [handleOneCommand, queryCmd]

/-! ## Authentication claims -/

/-- C4: a connection-open packet whose username is `'bblp'` and whose
password is the configured access code is answered with the CONNACK whose
final byte is 0x00, the session joins the authenticated set, and one full
status snapshot is pushed immediately; any other decodable connection-open
packet is answered with the CONNACK whose final byte is 0x05 and the
session is not added. -/
theorem connect_auth (accessCode : List Nat) (s : SimState)
    (payload : List Nat) (c : ConnectPacket)
    (hdec : decodeConnect payload = some c) :
    (c.username = some bblpBytes ∧ c.password = some accessCode →
      handleMqttConnect accessCode s payload =
        some ([0x20, 0x02, 0x00, 0x00], true,
              [.pushStatus (statusSnapshot s "0")])) ∧
    (¬(c.username = some bblpBytes ∧ c.password = some accessCode) →
      handleMqttConnect accessCode s payload =
        some ([0x20, 0x02, 0x00, 0x05], false, [])) := by
  unfold handleMqttConnect
  rw [hdec]
  constructor <;> intro hc <;> simp [hc]

/-- Witness: the concrete CONNECT with matching credentials is accepted
with final byte 0x00 and an immediate status push. -/
theorem connect_auth_witness :
    handleMqttConnect waccessCode (initialState 0) wconnectPayload =
      some ([0x20, 0x02, 0x00, 0x00], true,
            [.pushStatus (statusSnapshot (initialState 0) "0")]) :=
  (connect_auth waccessCode (initialState 0) wconnectPayload
      wconnectPacket (by decide)).1 (by decide)

/-! ## History query (C8) -/

lemma insertDesc_length (e : HistoryRecord) (l : List HistoryRecord) :
    (insertDesc e l).length = l.length + 1 := by
  induction l with
  | nil => rfl
  | cons a rest ih =>
      by_cases h : e.start_time ≤ a.start_time <;> simp [insertDesc, h, ih]

lemma insertDesc_perm (e : HistoryRecord) (l : List HistoryRecord) :
    List.Perm (insertDesc e l) (e :: l) := by
  induction l with
  | nil => simp [insertDesc]
  | cons a rest ih =>
      by_cases h : e.start_time ≤ a.start_time
      · simp only [insertDesc, if_pos h]
        exact (ih.cons a).trans (List.Perm.swap e a rest)
      · simp [insertDesc, h]

lemma insertDesc_sorted (e : HistoryRecord) {l : List HistoryRecord}
    (h : l.Pairwise (fun a b => b.start_time ≤ a.start_time)) :
    (insertDesc e l).Pairwise (fun a b => b.start_time ≤ a.start_time) := by
  induction l with
  | nil => simp [insertDesc]
  | cons a rest ih =>
      rcases List.pairwise_cons.mp h with ⟨ha, hrest⟩
      by_cases hle : e.start_time ≤ a.start_time
      · simp only [insertDesc, if_pos hle]
        refine List.pairwise_cons.mpr ⟨?_, ih hrest⟩
        intro x hx
        rcases List.mem_cons.mp ((insertDesc_perm e rest).mem_iff.mp hx) with
          rfl | hxr
        · exact hle
        · exact ha x hxr
      · simp only [insertDesc, if_neg hle]
        refine List.pairwise_cons.mpr ⟨?_, h⟩
        intro x hx
        rcases List.mem_cons.mp hx with rfl | hxr
        · omega
        · have := ha x hxr
          omega

lemma foldl_insertDesc_sorted (l : List HistoryRecord) :
    ∀ acc, acc.Pairwise (fun a b => b.start_time ≤ a.start_time) →
      (l.foldl (fun acc x => insertDesc x acc) acc).Pairwise
        (fun a b => b.start_time ≤ a.start_time) := by
  induction l with
  | nil => intro acc h; simpa using h
  | cons a rest ih => intro acc h; exact ih _ (insertDesc_sorted a h)

lemma foldl_insertDesc_length (l : List HistoryRecord) :
    ∀ acc, (l.foldl (fun acc x => insertDesc x acc) acc).length =
      acc.length + l.length := by
  induction l with
  | nil => intro acc; simp
  | cons a rest ih =>
      intro acc
      rw [List.foldl_cons, ih, insertDesc_length, List.length_cons]
      omega

lemma foldl_insertDesc_perm (l : List HistoryRecord) :
    ∀ acc, List.Perm (l.foldl (fun acc x => insertDesc x acc) acc)
      (l ++ acc) := by
  induction l with
  | nil => intro acc; simp
  | cons a rest ih =>
      intro acc
      have h1 := ih (insertDesc a acc)
      have h2 : List.Perm (rest ++ insertDesc a acc) (rest ++ (a :: acc)) :=
        List.Perm.append_left rest (insertDesc_perm a acc)
      have h3 : List.Perm (rest ++ (a :: acc)) (a :: (rest ++ acc)) :=
        List.perm_middle
      simp only [List.foldl_cons, List.cons_append]
      exact ((h1.trans h2).trans h3)

/-- The model sort is sorted by start time descending. -/
lemma sortStartDesc_sorted (l : List HistoryRecord) :
    (sortStartDesc l).Pairwise (fun a b => b.start_time ≤ a.start_time) :=
  foldl_insertDesc_sorted l [] (by simp)

/-- The model sort is a permutation of its input. -/
lemma sortStartDesc_perm (l : List HistoryRecord) :
    List.Perm (sortStartDesc l) l := by
  simpa using foldl_insertDesc_perm l []

lemma sortStartDesc_length (l : List HistoryRecord) :
    (sortStartDesc l).length = l.length := by
  simpa using foldl_insertDesc_length l []

lemma filterHistory_eq (filt : String) (h : List HistoryRecord) :
    filterHistory filt h = h.filter (fun r =>
      if filt = "success" then r.result == "success"
      else if filt = "failed" then r.result == "failed"
      else true) := by
  unfold filterHistory
  by_cases h1 : filt = "success"
  · simp [h1]
  · by_cases h2 : filt = "failed" <;> simp [h1, h2]

lemma slice_take_drop (l : List HistoryRecord) (start count : Nat) :
    (l.take (min (start + count) l.length)).drop start =
      (l.drop start).take count := by
  rw [List.drop_take, List.take_eq_take, List.length_drop]
  omega

unseal Rat.mul Rat.inv Rat.add Rat.sub in
/-- C8: the get-history reply equals the spec-side filter/sort-descending/
slice computation carrying the post-filter total, the returned slice is
sorted by start time descending, and on the seeded 3-record ledger
`filter=failed` returns exactly the one failed record while
`filter=all, start=0, count=2` returns the two most recent records with
total 3. -/
theorem get_history_query (s : SimState) (seq : String) (c : Command)
    (hf : c.filter.getD "all" = "all" ∨ c.filter.getD "all" = "success" ∨
      c.filter.getD "all" = "failed") :
    (sendHistory s seq c =
      .historyReply seq
        (historyQuerySpec s.print_history (c.start.getD 0) (c.count.getD 10)
          (c.filter.getD "all")).1
        (c.start.getD 0)
        (historyQuerySpec s.print_history (c.start.getD 0) (c.count.getD 10)
          (c.filter.getD "all")).2.length
        (historyQuerySpec s.print_history (c.start.getD 0) (c.count.getD 10)
          (c.filter.getD "all")).2) ∧
    (historyQuerySpec s.print_history (c.start.getD 0) (c.count.getD 10)
        (c.filter.getD "all")).2.Pairwise
      (fun a b => b.start_time ≤ a.start_time) ∧
    (sendHistory (initialState 0) "1"
        { command := some "get_history", sequence_id := some "1",
          filter := some "failed" } =
      .historyReply "1" 1 0 1 ((seededHistory 0).drop 2)) ∧
    (sendHistory (initialState 0) "2"
        { command := some "get_history", sequence_id := some "2",
          start := some 0, count := some 2, filter := some "all" } =
      .historyReply "2" 3 0 2 ((seededHistory 0).take 2)) := by
  refine ⟨?_, ?_, by decide, by decide⟩
  · unfold sendHistory historyQuerySpec
    simp only [filterHistory_eq, slice_take_drop]
    simp only [sortStartDesc_length]
  · exact List.Pairwise.sublist
      ((List.take_sublist _ _).trans (List.drop_sublist _ _))
      (sortStartDesc_sorted _)

/-- Witness: the failed-filter query on the seeded ledger matches the
spec-side computation. -/
theorem get_history_query_witness :
    sendHistory (initialState 0) "9" histFailedCmd =
      .historyReply "9"
        (historyQuerySpec (initialState 0).print_history 0 10 "failed").1
        0
        (historyQuerySpec (initialState 0).print_history 0 10 "failed").2.length
        (historyQuerySpec (initialState 0).print_history 0 10 "failed").2 :=
  (get_history_query (initialState 0) "9" histFailedCmd
    (Or.inr (Or.inr rfl))).1

/-! ## State-machine lemmas -/

lemma recordPrintCompletion_state (now : Int) (s : SimState) (b : Bool)
    (r : Int) : (recordPrintCompletion now s b r).state = s.state := by
  unfold recordPrintCompletion
  cases hps : s.state.printStartTime <;> simp [hps]

lemma recordPrintCompletion_ams (now : Int) (s : SimState) (b : Bool)
    (r : Int) : (recordPrintCompletion now s b r).ams = s.ams := by
  unfold recordPrintCompletion
  cases hps : s.state.printStartTime <;> simp [hps]

/-- When the `'print_start_time'` key is absent — which is always, since no
code path stores it — `_record_print_completion` is the identity. -/
lemma recordPrintCompletion_none (now : Int) (s : SimState) (b : Bool)
    (r : Int) (h : s.state.printStartTime = none) :
    recordPrintCompletion now s b r = s := by
  unfold recordPrintCompletion
  simp [h]

lemma executeGcode_frame (s : SimState) (g : String) :
    (executeGcode s g).state.progress = s.state.progress ∧
    (executeGcode s g).state.print_status = s.state.print_status ∧
    (executeGcode s g).state.printStartTime = s.state.printStartTime ∧
    (executeGcode s g).print_history = s.print_history ∧
    (executeGcode s g).ams = s.ams := by
  simp only [executeGcode]
  repeat' split
  all_goals simp

lemma executeGcode_progress (s : SimState) (g : String) :
    (executeGcode s g).state.progress = s.state.progress :=
  (executeGcode_frame s g).1

lemma executeGcode_printStartTime (s : SimState) (g : String) :
    (executeGcode s g).state.printStartTime = s.state.printStartTime :=
  (executeGcode_frame s g).2.2.1

/-- Every dispatched command preserves the `'print_start_time'` key
status, and either leaves progress unchanged or resets it to 0 — the
latter only for start, project-file and stop. -/
lemma handleOneCommand_frame (now : Int) (s : SimState) (c : Command) :
    (handleOneCommand now s c).1.state.printStartTime =
      s.state.printStartTime ∧
    ((handleOneCommand now s c).1.state.progress = s.state.progress ∨
      ((handleOneCommand now s c).1.state.progress = 0 ∧
        (c.command.getD "" = "start_print" ∨
         c.command.getD "" = "project_file" ∨
         c.command.getD "" = "stop"))) := by
  by_cases h1 : c.command.getD "" = "push_all"
  · simp [handleOneCommand, h1]
  by_cases h2 : c.command.getD "" = "get_history"
  · simp [handleOneCommand, h1, h2]
  by_cases h3 : c.command.getD "" = "get_version"
  · simp [handleOneCommand, h1, h2, h3]
  by_cases h4 : c.command.getD "" = "start_print" ∨
      c.command.getD "" = "project_file"
  · by_cases h5 : c.ams_tray.getD 0 < (s.ams.trays.length : Int)
    · rcases hg : pyGet s.ams.trays (c.ams_tray.getD 0) with _ | tray <;>
        rcases h4 with h4 | h4 <;>
        simp [handleOneCommand, h1, h2, h3, h4, h5, hg]
    · rcases h4 with h4 | h4 <;>
        simp [handleOneCommand, h1, h2, h3, h4, h5]
  by_cases h6 : c.command.getD "" = "pause"
  · simp [handleOneCommand, h1, h2, h3, h4, h6]
  by_cases h7 : c.command.getD "" = "resume"
  · simp [handleOneCommand, h1, h2, h3, h4, h6, h7]
  by_cases h8 : c.command.getD "" = "stop"
  · simp [handleOneCommand, h1, h2, h3, h4, h6, h7, h8,
      recordPrintCompletion_state]
  by_cases h9 : c.command.getD "" = "gcode_line"
  · simp [handleOneCommand, h1, h2, h3, h4, h6, h7, h8, h9,
      executeGcode_printStartTime, executeGcode_progress]
  by_cases h10 : c.command.getD "" = "change_filament"
  · by_cases h11 : c.target_ams.getD 0 < (s.ams.trays.length : Int) <;>
      simp [handleOneCommand, h1, h2, h3, h4, h6, h7, h8, h9, h10, h11]
  · simp [handleOneCommand, h1, h2, h3, h4, h6, h7, h8, h9, h10]

lemma handleOneCommand_printStartTime (now : Int) (s : SimState)
    (c : Command) :
    (handleOneCommand now s c).1.state.printStartTime =
      s.state.printStartTime :=
  (handleOneCommand_frame now s c).1

lemma simulateTick_printStartTime (now : Int) (s s' : SimState)
    (h : simulateTick now s = some s') :
    s'.state.printStartTime = s.state.printStartTime := by
  simp only [simulateTick] at h
  repeat' split at h
  all_goals cases h
  all_goals simp [recordPrintCompletion_state]

/-- Every reachable state still lacks the `'print_start_time'` key, so the
history-recording function never fires. -/
lemma reachable_printStartTime (s : SimState) (h : Reachable s) :
    s.state.printStartTime = none := by
  induction h with
  | init now0 => rfl
  | tick now hs he ih => rw [simulateTick_printStartTime _ _ _ he]; exact ih
  | cmd now c hs ih =>
      unfold applyCmd
      rw [handleOneCommand_printStartTime]
      exact ih

lemma progressInv_init (now0 : Int) : progressInv (initialState now0) := by
  refine ⟨?_, ?_, ?_⟩ <;> simp [initialState]

lemma progressInv_cmd (now : Int) (s : SimState) (c : Command)
    (h : progressInv s) : progressInv (applyCmd now s c) := by
  unfold progressInv at h ⊢
  unfold applyCmd
  rcases (handleOneCommand_frame now s c).2 with hp | ⟨hp, _⟩ <;>
    rw [hp] <;> omega

lemma progressInv_tick (now : Int) (s s' : SimState)
    (h : simulateTick now s = some s') (hi : progressInv s) :
    progressInv s' := by
  unfold progressInv at hi ⊢
  simp only [simulateTick] at h
  repeat' split at h
  all_goals cases h
  all_goals simp [recordPrintCompletion_state]
  all_goals omega

lemma reachable_progressInv (s : SimState) (h : Reachable s) :
    progressInv s := by
  induction h with
  | init now0 => exact progressInv_init now0
  | tick now hs he ih => exact progressInv_tick _ _ _ he ih
  | cmd now c hs ih => exact progressInv_cmd _ _ _ ih

/-! ## Stop command (C1) -/

/-- C1: stop while RUNNING resets status/progress/targets and clears the
selected tray and replies success — but appends nothing to the history
ledger, because `_record_print_completion` returns early: no code path ever
stores the `'print_start_time'` key it requires. -/
theorem stop_running_eval (now : Int) (s : SimState) (seq : String)
    (hr : Reachable s) (hst : s.state.print_status = "RUNNING") :
    (handleOneCommand now s (queryCmd "stop" seq)).1.print_history =
      s.print_history ∧
    (handleOneCommand now s (queryCmd "stop" seq)).1.state.print_status =
      "IDLE" ∧
    (handleOneCommand now s (queryCmd "stop" seq)).1.state.progress = 0 ∧
    (handleOneCommand now s (queryCmd "stop" seq)).1.state.bed_target_temp
      = 0 ∧
    (handleOneCommand now s
      (queryCmd "stop" seq)).1.state.nozzle_target_temp = 0 ∧
    (handleOneCommand now s (queryCmd "stop" seq)).1.ams.tray_now = 255 ∧
    (handleOneCommand now s (queryCmd "stop" seq)).2.1 =
      [.cmdReply "stop" "success" seq none] := by
  have hnone := reachable_printStartTime s hr
  have hrec := recordPrintCompletion_none now s false 50331648 hnone
  simp [handleOneCommand, queryCmd, hrec]

unseal Rat.mul Rat.inv Rat.add Rat.sub in
lemma sRun_tick : simulateTick 0 sRun = some sRun10 := by decide

lemma reachable_sRun10 : Reachable sRun10 :=
  Reachable.tick 0
    (Reachable.cmd 0 (queryCmd "start_print" "1") (Reachable.init 0))
    sRun_tick

unseal Rat.mul Rat.inv Rat.add Rat.sub in
/-- Witness: stopping the concrete running print leaves the ledger
unchanged while resetting the state. -/
theorem stop_running_eval_witness :
    (handleOneCommand 0 sRun10 (queryCmd "stop" "9")).1.print_history =
      sRun10.print_history ∧
    (handleOneCommand 0 sRun10 (queryCmd "stop" "9")).1.state.print_status =
      "IDLE" ∧
    (handleOneCommand 0 sRun10 (queryCmd "stop" "9")).1.state.progress = 0 ∧
    (handleOneCommand 0 sRun10
      (queryCmd "stop" "9")).1.state.bed_target_temp = 0 ∧
    (handleOneCommand 0 sRun10
      (queryCmd "stop" "9")).1.state.nozzle_target_temp = 0 ∧
    (handleOneCommand 0 sRun10 (queryCmd "stop" "9")).1.ams.tray_now =
      255 ∧
    (handleOneCommand 0 sRun10 (queryCmd "stop" "9")).2.1 =
      [.cmdReply "stop" "success" "9" none] :=
  stop_running_eval 0 sRun10 "9" reachable_sRun10 (by decide)

/-! ## Natural completion (C2) -/

/-- C2: from RUNNING at progress 90, two ticks reach IDLE with progress
clamped at 100 and remaining time 0 — but the history ledger is unchanged:
the successful-completion record is never appended because
`_record_print_completion` returns early (the `'print_start_time'` key it
requires is never stored). -/
theorem natural_completion_eval (now1 now2 : Int) (s : SimState)
    (hst : s.state.print_status = "RUNNING") (hp : s.state.progress = 90)
    (hnone : s.state.printStartTime = none)
    (htray : s.ams.tray_now = 255 ∨
      ∃ t, pyGet s.ams.trays s.ams.tray_now = some t) :
    ((simulateTick now1 s).bind (simulateTick now2)).map
        (fun s2 => (s2.state.print_status, s2.state.progress,
          s2.state.remaining_time, s2.print_history)) =
      some ("IDLE", 100, 0, s.print_history) := by
  by_cases h255 : s.ams.tray_now = 255
  · simp [simulateTick, hst, hp, h255, recordPrintCompletion_none, hnone]
  · rcases htray with h | ⟨t, hget⟩
    · exact absurd h h255
    · simp [simulateTick, hst, hp, h255, hget,
        recordPrintCompletion_none, hnone]

unseal Rat.mul Rat.inv Rat.add Rat.sub in
/-- Witness: ticking the concrete progress-90 state twice ends IDLE at 100
with the seeded three-record ledger untouched. -/
theorem natural_completion_eval_witness :
    ((simulateTick 0 w90).bind (simulateTick 0)).map
        (fun s2 => (s2.state.print_status, s2.state.progress,
          s2.state.remaining_time, s2.print_history)) =
      some ("IDLE", 100, 0, w90.print_history) :=
  natural_completion_eval 0 0 w90 (by decide) (by decide) (by decide)
    (Or.inl (by decide))

/-! ## Progress invariant (C6) -/

/-- C6 (amended): for every reachable state, progress never decreases
across a successful simulation tick while RUNNING, a tick never resets
positive progress to 0, and the only commands that reset positive progress
to 0 are start, project-file and stop. -/
theorem progress_monotone (s : SimState) (hs : Reachable s) :
    (∀ now s', s.state.print_status = "RUNNING" →
      simulateTick now s = some s' →
      s.state.progress ≤ s'.state.progress) ∧
    (∀ now s', simulateTick now s = some s' →
      0 < s.state.progress → 0 < s'.state.progress) ∧
    (∀ now c, 0 < s.state.progress →
      (applyCmd now s c).state.progress = 0 →
      c.command.getD "" = "start_print" ∨
      c.command.getD "" = "project_file" ∨
      c.command.getD "" = "stop") := by
  have hi := reachable_progressInv s hs
  unfold progressInv at hi
  refine ⟨?_, ?_, ?_⟩
  · intro now s' hrun htick
    simp only [simulateTick] at htick
    repeat' split at htick
    all_goals cases htick
    all_goals simp [recordPrintCompletion_state]
    all_goals omega
  · intro now s' htick hpos
    simp only [simulateTick] at htick
    repeat' split at htick
    all_goals cases htick
    all_goals simp [recordPrintCompletion_state]
    all_goals omega
  · intro now c hpos h0
    rcases (handleOneCommand_frame now s c).2 with hp | ⟨_, hcmd⟩
    · unfold applyCmd at h0
      rw [hp] at h0
      omega
    · exact hcmd

unseal Rat.mul Rat.inv Rat.add Rat.sub in
lemma sRun10_tick : simulateTick 0 sRun10 = some sRun20 := by decide

unseal Rat.mul Rat.inv Rat.add Rat.sub in
/-- Witness for the amended progress claim on the concrete running
state. -/
theorem progress_monotone_witness :
    sRun10.state.progress ≤ sRun20.state.progress ∧
    0 < sRun20.state.progress ∧
    ((queryCmd "stop" "3").command.getD "" = "start_print" ∨
      (queryCmd "stop" "3").command.getD "" = "project_file" ∨
      (queryCmd "stop" "3").command.getD "" = "stop") := by
  have h := progress_monotone sRun10 reachable_sRun10
  exact ⟨h.1 0 sRun20 (by decide) sRun10_tick,
    h.2.1 0 sRun20 sRun10_tick (by decide),
    h.2.2 0 (queryCmd "stop" "3") (by decide) (by decide)⟩

unseal Rat.mul Rat.inv Rat.add Rat.sub in
/-- Counterexample to C6 as stated: the stop command — not a start — also
resets positive progress to 0, at a reachable state. -/
theorem progress_reset_by_stop_cx :
    Reachable sRun10 ∧ 0 < sRun10.state.progress ∧
    (applyCmd 0 sRun10 (queryCmd "stop" "2")).state.progress = 0 ∧
    (queryCmd "stop" "2").command.getD "" ≠ "start_print" ∧
    (queryCmd "stop" "2").command.getD "" ≠ "project_file" :=
  ⟨reachable_sRun10, by decide, by decide, by decide, by decide⟩

/-! ## Unauthenticated sessions (C3) -/

/-- C3 (amended): publish and subscribe packets on a session whose worker
flag is still false — one that never received any connection-open packet —
are dropped with no state mutation and no reply; but processing any
connection-open packet, even one refused for bad credentials, sets the
worker flag, so later publishes are handled. -/
theorem unauth_packets_silent (accessCode : List Nat)
    (jsonParse : List Nat → Option (List Command)) (now : Int)
    (ss : SessionState) (firstByte : Nat) (payload : List Nat)
    (hauth : ss.auth = false)
    (hty : (firstByte >>> 4) &&& 0x0F = 3 ∨
      (firstByte >>> 4) &&& 0x0F = 8) :
    sessionStep accessCode jsonParse now ss firstByte payload =
      (ss, [], false) ∧
    ∀ cpayload : List Nat,
      (sessionStep accessCode jsonParse now ss 0x10 cpayload).1.auth =
        true := by
  constructor
  · rcases hty with h | h <;> simp [sessionStep, h, hauth]
  · intro cpayload
    have h1 : ((0x10 : Nat) >>> 4) &&& 0x0F = 1 := by decide
    cases hmc : handleMqttConnect accessCode ss.sim cpayload with
    | none => simp [sessionStep, h1, hmc]
    | some v =>
        obtain ⟨connack, ok, pushes⟩ := v
        simp [sessionStep, h1, hmc]

unseal Rat.mul Rat.inv Rat.add Rat.sub in
/-- Counterexample to C3 as stated: a session whose connection-open was
refused (it is never in the authenticated set, CONNACK ends 0x05) still
gets its subsequent publish processed — the printer state flips from IDLE
to PAUSED and a reply is sent. -/
theorem unauth_publish_cx :
    cxSession1.inAuthSet = false ∧
    (sessionStep cxAccess cxParse 0 cxSession0 0x10 cxBadConnect).2.1 =
      [.raw [0x20, 0x02, 0x00, 0x05]] ∧
    cxSession1.sim.state.print_status = "IDLE" ∧
    (sessionStep cxAccess cxParse 0 cxSession1 0x30
        cxPubPayload).1.sim.state.print_status = "PAUSED" ∧
    (sessionStep cxAccess cxParse 0 cxSession1 0x30 cxPubPayload).2.1 ≠
      [] :=
  ⟨by decide, by decide, by decide, by decide, by decide⟩

unseal Rat.mul Rat.inv Rat.add Rat.sub in
/-- Witness for the amended C3 claim: on a fresh session a publish packet
is a silent no-op, and any connection-open packet flips the worker flag. -/
theorem unauth_packets_silent_witness :
    sessionStep cxAccess cxParse 0 cxSession0 0x30 cxPubPayload =
      (cxSession0, [], false) ∧
    (sessionStep cxAccess cxParse 0 cxSession0 0x10 cxBadConnect).1.auth =
      true := by
  have h := unauth_packets_silent cxAccess cxParse 0 cxSession0 0x30
    cxPubPayload (by decide) (Or.inl (by decide))
  exact ⟨h.1, h.2 cxBadConnect⟩

end BambuSim
